import Mathlib

/-!
Shallow embedding of the `mcp-server-tester-sse-http-stdio` Python wrapper
(`src/python-wrapper/src/mcp_server_tester/{core.py, cli.py, exceptions.py}`
and `src/python-wrapper/scripts/sync_commands.py`).

Python values flowing through the wrapper are JSON-like documents, modelled by
`Json`.  Effects of the wrapper (file writes, temporary-file creation,
subprocess invocations) are made explicit: the ambient Python environment
(filesystem contents, the `tempfile` name supply, `subprocess.run`,
`json.loads`/`json.dumps`/`yaml.dump`) is a `World` of parameters, and each
embedded function threads a `Trace` recording the effects it performs, in
order.  Fallible Python code returns `Except PyError`.
-/

mutual
/-- A JSON-like Python value: what `json.loads` can return and what the
configuration dictionaries passed to the wrapper contain.  Python floats are
modelled as exact rationals; Python dicts as association lists (unique keys,
insertion order, `JsonObject`); Python lists as `JsonArray`. -/
inductive Json where
  | null : Json
  | bool (b : Bool) : Json
  | num (q : Rat) : Json
  | str (s : String) : Json
  | arr (elems : JsonArray) : Json
  | obj (fields : JsonObject) : Json

/-- A list of JSON-like values. -/
inductive JsonArray where
  | nil : JsonArray
  | cons (head : Json) (tail : JsonArray) : JsonArray

/-- The fields of a JSON-like dict, in insertion order. -/
inductive JsonObject where
  | nil : JsonObject
  | cons (key : String) (value : Json) (tail : JsonObject) : JsonObject
end

deriving instance DecidableEq for Json
deriving instance DecidableEq for JsonArray
deriving instance DecidableEq for JsonObject

/-- First value bound to `key`, if any (Python dicts have unique keys). -/
def JsonObject.lookup : JsonObject → String → Option Json
  | .nil, _ => none
  | .cons k v tail, key => if k = key then some v else tail.lookup key

/-- Python `dict.get(key, default)` on an object's fields. -/
def Json.get (fields : JsonObject) (key : String) (default : Json) : Json :=
  match fields.lookup key with
  | some v => v
  | none => default

/-- Whether the list is empty (Python `bool([...])` is false only for `[]`). -/
def JsonArray.isEmpty : JsonArray → Bool
  | .nil => true
  | .cons _ _ => false

/-- Whether the dict is empty. -/
def JsonObject.isEmpty : JsonObject → Bool
  | .nil => true
  | .cons _ _ _ => false

/-- Python truthiness (`bool(v)`) of a JSON-like value: `None`, `False`, `0`,
`""`, `[]` and `{}` are falsy, everything else truthy.  This is what
`0 if result.success else 1` in `cli.py` evaluates. -/
def Json.truthy : Json → Bool
  | .null => false
  | .bool b => b
  | .num q => q != 0
  | .str s => s != ""
  | .arr elems => !elems.isEmpty
  | .obj fields => !fields.isEmpty

deriving instance DecidableEq for Except

/-- A finished `subprocess.run(...)` result (`subprocess.CompletedProcess`
with `capture_output=True, text=True`). -/
structure CompletedProcess where
  returncode : Int
  stdout : String
  stderr : String
  deriving DecidableEq

/-- What a `subprocess.run` invocation can do: finish, exceed its `timeout`
(`subprocess.TimeoutExpired`), fail to launch (`FileNotFoundError`), or raise
some other exception. -/
inductive RunOutcome where
  | completed (r : CompletedProcess) : RunOutcome
  | timedOut : RunOutcome
  | fileNotFound : RunOutcome
  | otherError (msg : String) : RunOutcome
  deriving DecidableEq

/-- One `subprocess.run` invocation: the argument vector and the `timeout=`
argument in seconds (`none` when no timeout is passed). -/
structure RunCall where
  cmd : List String
  timeoutSeconds : Option Rat
  deriving DecidableEq

/-- A filesystem effect the wrapper performs: writing a file (serialised
configuration text) or deleting one.  The wrapper never emits `delete`: it is
here because `tempfile.NamedTemporaryFile(delete=True)` would emit it, and
`core.py` passes `delete=False`. -/
inductive FsOp where
  | write (path : String) (content : String) : FsOp
  | delete (path : String) : FsOp
  deriving DecidableEq

/-- The effects performed so far: the `tempfile` counter (how many temporary
names have been taken from the supply), the filesystem operations and the
subprocess invocations, each in order. -/
structure Trace where
  tmpCounter : Nat := 0
  fsOps : List FsOp := []
  runs : List RunCall := []
  deriving DecidableEq

/-- The ambient Python environment the wrapper runs in, as unconstrained
parameters:
* `which name` — `shutil.which(name)`;
* `pathNorm s` — `str(Path(s))` (path normalisation);
* `fsExists p` — `Path(p).exists()`;
* `tmpName k` — the name `tempfile.NamedTemporaryFile` hands out for the
  `k`-th temporary file (the module guarantees freshness);
* `runCmd c` — what `subprocess.run` does for invocation `c`;
* `jsonLoads s` — `json.loads(s)`: `some v` when `s` parses to `v`, `none`
  when it raises `json.JSONDecodeError`;
* `jsonDumps v` — `json.dumps(v, indent=2)` (also used for `json.dump` to a
  file);
* `yamlDumps v` — `yaml.dump(v, default_flow_style=False)`. -/
structure World where
  which : String → Option String
  pathNorm : String → String
  fsExists : String → Bool
  tmpName : Nat → String
  runCmd : RunCall → RunOutcome
  jsonLoads : String → Option Json
  jsonDumps : Json → String
  yamlDumps : Json → String

/-- The exceptions the wrapper raises (`exceptions.py`), plus the Python
built-in exceptions that can cross these functions (`AttributeError` from
calling `.get` on a non-dict, `FileNotFoundError`/other from `subprocess`).
Messages follow the source; for built-ins whose text Python derives from the
runtime type, a fixed descriptive message stands in. -/
inductive PyError where
  | nodeJSNotFoundError (message : String) : PyError
  | npmPackageNotFoundError (message : String) : PyError
  | mcpTestExecutionError (message : String) (return_code : Int) (stderr : String) : PyError
  | mcpConfigurationError (message : String) : PyError
  | attributeError (message : String) : PyError
  | fileNotFoundError (message : String) : PyError
  | otherError (message : String) : PyError
  deriving DecidableEq

/-- Whether the exception is an `MCPTesterError` (the base class in
`exceptions.py`): these are what the CLI handlers catch. -/
def PyError.isMCPTesterError : PyError → Bool
  | .nodeJSNotFoundError _ => true
  | .npmPackageNotFoundError _ => true
  | .mcpTestExecutionError _ _ _ => true
  | .mcpConfigurationError _ => true
  | .attributeError _ => false
  | .fileNotFoundError _ => false
  | .otherError _ => false

/-- Python `str(e)` on an exception: its message. -/
def PyError.pyStr : PyError → String
  | .nodeJSNotFoundError m => m
  | .npmPackageNotFoundError m => m
  | .mcpTestExecutionError m _ _ => m
  | .mcpConfigurationError m => m
  | .attributeError m => m
  | .fileNotFoundError m => m
  | .otherError m => m

/-- Default message of `NodeJSNotFoundError` (`exceptions.py`). -/
def nodeJSNotFoundMessage : String :=
  "Node.js not found. Please install Node.js >= 18.0.0"

/-- Default message of `NPMPackageNotFoundError` (`exceptions.py`). -/
def npmPackageNotFoundMessage : String :=
  "NPM package 'mcp-server-tester-sse-http-stdio' not found. Run: npm install -g mcp-server-tester-sse-http-stdio"

/-- The result dataclass `MCPTestResult` of `core.py`.  Python does not
enforce the annotated field types at runtime, so the parsed fields hold
whatever JSON values `_parse_result` put there. -/
structure MCPTestResult where
  success : Json
  passed_tests : Json
  total_tests : Json
  failed_tests : Json
  execution_time : Json
  output : String
  error : String := ""
  deriving DecidableEq

/-- `MCPTester._parse_result` (`core.py` lines 173-223).  A non-zero return
code raises `MCPTestExecutionError`.  For `format == "json"` the stdout is
parsed with `json.loads`; a parsed dict fills each field with
`output_data.get(key, default)`; a parsed non-dict value makes
`output_data.get` raise `AttributeError`; a `json.JSONDecodeError` is caught
and a fallback result is built from the return code, stdout and stderr.  For
other formats a basic result is built the same way without parsing. -/
def parse_result (W : World) (result : CompletedProcess) (format : String) :
    Except PyError MCPTestResult :=
  if result.returncode ≠ 0 then
    .error (.mcpTestExecutionError
      ("Test execution failed with return code " ++ toString result.returncode)
      result.returncode result.stderr)
  else if format = "json" then
    match W.jsonLoads result.stdout with
    | some (.obj fields) =>
        .ok { success := Json.get fields "success" (.bool false)
              passed_tests := Json.get fields "passed" (.num 0)
              total_tests := Json.get fields "total" (.num 0)
              failed_tests := Json.get fields "failed" (.arr .nil)
              execution_time := Json.get fields "execution_time" (.num 0)
              output := result.stdout
              error := "" }
    | some _ =>
        .error (.attributeError "object has no attribute get")
    | none =>
        .ok { success := .bool (result.returncode = 0)
              passed_tests := .num (if result.returncode = 0 then 1 else 0)
              total_tests := .num 1
              failed_tests := if result.returncode = 0 then .arr .nil
                              else .arr (.cons (.obj (.cons "error" (.str "JSON parsing failed") .nil)) .nil)
              execution_time := .num 0
              output := result.stdout
              error := result.stderr }
  else
    .ok { success := .bool (result.returncode = 0)
          passed_tests := .num (if result.returncode = 0 then 1 else 0)
          total_tests := .num 1
          failed_tests := if result.returncode = 0 then .arr .nil
                          else .arr (.cons (.obj (.cons "error" (.str "Test failed") .nil)) .nil)
          execution_time := .num 0
          output := result.stdout
          error := result.stderr }

/-- A value passed as `server_config`/`test_config` to `MCPTester`: a `str`
or `Path` (both become `Path(config)`), a dict, or anything else (the
`isinstance` fall-through of `_prepare_config`). -/
inductive ConfigArg where
  | path (s : String) : ConfigArg
  | dict (d : Json) : ConfigArg
  | other : ConfigArg
  deriving DecidableEq

/-- `MCPTester._prepare_config` (`core.py` lines 141-171).  A `str`/`Path`
argument is normalised to `str(Path(config))` and must exist on disk, else
`MCPConfigurationError`; a dict is serialised (YAML for `config_type ==
"test_config"`, JSON otherwise) into a fresh `tempfile.NamedTemporaryFile`
with `delete=False`, the write is recorded in the trace and the temporary
name returned; any other value raises `MCPConfigurationError`.  The second
component of the result pair is the caller's argument as the function leaves
it: the source only reads the dict (an embedded mutation would have to return
an updated document here). -/
def prepare_config (W : World) (config : ConfigArg) (config_type : String)
    (t : Trace) : (Except PyError String × ConfigArg) × Trace :=
  match config with
  | .path s =>
      let config_path := W.pathNorm s
      if W.fsExists config_path then
        ((.ok config_path, .path s), t)
      else
        ((.error (.mcpConfigurationError
            (config_type ++ " file not found: " ++ config_path)), .path s), t)
  | .dict d =>
      let content := if config_type = "test_config" then W.yamlDumps d else W.jsonDumps d
      let name := W.tmpName t.tmpCounter
      ((.ok name, .dict d),
       { t with tmpCounter := t.tmpCounter + 1
                fsOps := t.fsOps ++ [.write name content] })
  | .other =>
      ((.error (.mcpConfigurationError
          ("Invalid " ++ config_type ++ " type. Expected str, Path, or dict.")),
        .other), t)

/-- The optional flags `test_server` appends to the argument vector
(`core.py` lines 112-121).  `if server_name:` and `if output_file:` are
Python truthiness tests, so an empty string behaves like `None`. -/
def buildTestOpts (server_name : Option String) (timeout : Int) (verbose : Bool)
    (format : String) (output_file : Option String) : List String :=
  (match server_name with
      | some n => if n ≠ "" then ["--server-name", n] else []
      | none => [])
    ++ (if timeout ≠ 30000 then ["--timeout", toString timeout] else [])
    ++ (if verbose then ["--verbose"] else [])
    ++ (if format ≠ "json" then ["--format", format] else [])
    ++ (match output_file with
        | some o => if o ≠ "" then ["--output", o] else []
        | none => [])

/-- The argument vector `test_server` builds (`core.py` lines 107-121). -/
def buildTestCmd (pkg : String) (server_config_path test_config_path : String)
    (server_name : Option String) (timeout : Int) (verbose : Bool)
    (format : String) (output_file : Option String) : List String :=
  ["npx", pkg, "--server-config", server_config_path, "--test", test_config_path]
    ++ buildTestOpts server_name timeout verbose format output_file

/-- `MCPTester.test_server` (`core.py` lines 73-139).  Both configurations
are prepared (outside the `try` block, so their `MCPConfigurationError`
propagates as such), the argument vector is built, and the external tool is
run once with `timeout=timeout/1000.0` seconds.  Inside the `try` block,
`subprocess.TimeoutExpired` maps to a timeout `MCPTestExecutionError` and
every other exception `e` — including the `MCPTestExecutionError` and
`AttributeError` that `_parse_result` itself raises — is re-raised as
`MCPTestExecutionError("Test execution failed: " + str(e))` with the default
`return_code=1, stderr=""`. -/
def test_server (W : World) (pkg : String) (server_config test_config : ConfigArg)
    (server_name : Option String) (timeout : Int) (verbose : Bool)
    (format : String) (output_file : Option String) (t : Trace) :
    Except PyError MCPTestResult × Trace :=
  match prepare_config W server_config "server_config" t with
  | ((.error e, _), t1) => (.error e, t1)
  | ((.ok server_config_path, _), t1) =>
    match prepare_config W test_config "test_config" t1 with
    | ((.error e, _), t2) => (.error e, t2)
    | ((.ok test_config_path, _), t2) =>
      let cmd := buildTestCmd pkg server_config_path test_config_path
        server_name timeout verbose format output_file
      let call : RunCall := ⟨cmd, some ((timeout : Rat) / 1000)⟩
      let t3 := { t2 with runs := t2.runs ++ [call] }
      match W.runCmd call with
      | .completed r =>
          match parse_result W r format with
          | .ok res => (.ok res, t3)
          | .error e =>
              (.error (.mcpTestExecutionError
                ("Test execution failed: " ++ e.pyStr) 1 ""), t3)
      | .timedOut =>
          (.error (.mcpTestExecutionError
            ("Test execution timed out after " ++ toString timeout ++ "ms") 1 ""), t3)
      | .fileNotFound =>
          (.error (.mcpTestExecutionError
            ("Test execution failed: [Errno 2] No such file or directory") 1 ""), t3)
      | .otherError m =>
          (.error (.mcpTestExecutionError ("Test execution failed: " ++ m) 1 ""), t3)

/-- `MCPTester._check_dependencies` (`core.py` lines 54-71): raise
`NodeJSNotFoundError` when `shutil.which("node")` finds nothing; then probe
`npx <package> --help` with a 10-second timeout and raise
`NPMPackageNotFoundError` on a non-zero exit, on `subprocess.TimeoutExpired`
or on `FileNotFoundError` (any other exception propagates).  Constructing
`MCPTester()` runs exactly this. -/
def check_dependencies (W : World) (npm_package_name : String) (t : Trace) :
    Except PyError Unit × Trace :=
  if (W.which "node").isNone then
    (.error (.nodeJSNotFoundError nodeJSNotFoundMessage), t)
  else
    let call : RunCall := ⟨["npx", npm_package_name, "--help"], some 10⟩
    let t1 := { t with runs := t.runs ++ [call] }
    match W.runCmd call with
    | .completed r =>
        if r.returncode ≠ 0 then
          (.error (.npmPackageNotFoundError npmPackageNotFoundMessage), t1)
        else
          (.ok (), t1)
    | .timedOut => (.error (.npmPackageNotFoundError npmPackageNotFoundMessage), t1)
    | .fileNotFound => (.error (.npmPackageNotFoundError npmPackageNotFoundMessage), t1)
    | .otherError m => (.error (.otherError m), t1)

/-- The argument vector `list_tools` builds (`core.py` lines 232-237). -/
def buildToolsCmd (pkg : String) (server_config_path : String)
    (server_name : Option String) : List String :=
  ["npx", pkg, "tools", "--server-config", server_config_path]
    ++ (match server_name with
        | some n => if n ≠ "" then ["--server-name", n] else []
        | none => [])

/-- `MCPTester.list_tools` (`core.py` lines 225-248): prepare the server
configuration, run `npx <pkg> tools ...` with no timeout and no `try` block
(a raised exception propagates as itself), raise `MCPTestExecutionError` on a
non-zero exit code, and otherwise return `json.loads(stdout)` — whatever
value that is — or `[]` when parsing raises `json.JSONDecodeError`. -/
def list_tools (W : World) (pkg : String) (server_config : ConfigArg)
    (server_name : Option String) (t : Trace) : Except PyError Json × Trace :=
  match prepare_config W server_config "server_config" t with
  | ((.error e, _), t1) => (.error e, t1)
  | ((.ok server_config_path, _), t1) =>
    let call : RunCall := ⟨buildToolsCmd pkg server_config_path server_name, none⟩
    let t2 := { t1 with runs := t1.runs ++ [call] }
    match W.runCmd call with
    | .completed r =>
        if r.returncode ≠ 0 then
          (.error (.mcpTestExecutionError "Failed to list tools" r.returncode r.stderr), t2)
        else
          match W.jsonLoads r.stdout with
          | some v => (.ok v, t2)
          | none => (.ok (.arr .nil), t2)
    | .timedOut => (.error (.otherError "subprocess.TimeoutExpired"), t2)
    | .fileNotFound =>
        (.error (.fileNotFoundError "[Errno 2] No such file or directory"), t2)
    | .otherError m => (.error (.otherError m), t2)

/-- `MCPTester.create_server_config` (`core.py` lines 256-270): build
`{"mcpServers": servers}`; with an output path, write its JSON serialisation
to `Path(output_path)` and return that path, otherwise return the
serialisation itself.  The second component of the result pair is the
caller's `servers` dict as the function leaves it (the source only reads
it). -/
def create_server_config (W : World) (servers : JsonObject)
    (output_path : Option String) (t : Trace) : (String × JsonObject) × Trace :=
  let config : Json := .obj (.cons "mcpServers" (.obj servers) .nil)
  match output_path with
  | some p =>
      let config_path := W.pathNorm p
      ((config_path, servers),
       { t with fsOps := t.fsOps ++ [.write config_path (W.jsonDumps config)] })
  | none => ((W.jsonDumps config, servers), t)

/-- `MCPTester.create_test_config` (`core.py` lines 272-285): build
`{"tools": {"tests": tests}}`; with an output path, write its YAML
serialisation to `Path(output_path)` and return that path, otherwise return
the serialisation itself.  The second component of the result pair is the
caller's `tests` list as the function leaves it (the source only reads
it). -/
def create_test_config (W : World) (tests : JsonArray)
    (output_path : Option String) (t : Trace) : (String × JsonArray) × Trace :=
  let config : Json := .obj (.cons "tools" (.obj (.cons "tests" (.arr tests) .nil)) .nil)
  match output_path with
  | some p =>
      let config_path := W.pathNorm p
      ((config_path, tests),
       { t with fsOps := t.fsOps ++ [.write config_path (W.yamlDumps config)] })
  | none => ((W.yamlDumps config, tests), t)

/-- The NPM package name `MCPTester()` defaults to. -/
def defaultPkg : String := "mcp-server-tester-sse-http-stdio"

/-- What a CLI subcommand invocation amounts to: lines echoed to stdout and
stderr plus a `sys.exit` code, or an exception the handler did not catch
(which ends the interpreter with a traceback). -/
inductive CliResult where
  | exited (stdoutLines stderrLines : List String) (code : Int) : CliResult
  | uncaught (e : PyError) : CliResult
  deriving DecidableEq

/-- The `test` subcommand (`cli.py` lines 24-64): construct `MCPTester()`,
call `test_server` with the parsed options (the two configuration paths are
passed as strings), echo `result.output`, and exit with
`0 if result.success else 1` (Python truthiness).  An `MCPTesterError` from
construction or from `test_server` is echoed to stderr as `"Error: ..."`
followed by `sys.exit(1)`. -/
def cli_test (W : World) (server_config test : String) (server_name : Option String)
    (timeout : Int) (verbose : Bool) (format : String) (output : Option String) :
    CliResult × Trace :=
  match check_dependencies W defaultPkg {} with
  | (.error e, t1) =>
      if e.isMCPTesterError then (.exited [] ["Error: " ++ e.pyStr] 1, t1)
      else (.uncaught e, t1)
  | (.ok _, t1) =>
    match test_server W defaultPkg (.path server_config) (.path test)
        server_name timeout verbose format output t1 with
    | (.error e, t2) =>
        if e.isMCPTesterError then (.exited [] ["Error: " ++ e.pyStr] 1, t2)
        else (.uncaught e, t2)
    | (.ok result, t2) =>
        (.exited [result.output] [] (if result.success.truthy then 0 else 1), t2)

/-- Python `\s` on the text the scraper handles (ASCII whitespace; the
Unicode extension of `\s`, `str.strip` and `\w` plays no role in `--help`
text and is not modelled). -/
def isSpaceChar (c : Char) : Bool :=
  c = ' ' || c = '\t' || c = '\n' || c = '\r' || c = '\x0b' || c = '\x0c'

/-- Python `\w` (ASCII): letters, digits and underscore. -/
def isWordChar (c : Char) : Bool :=
  c.isAlphanum || c = '_'

/-- Python `str.strip()`: drop leading and trailing whitespace. -/
def pyStrip (s : String) : String :=
  String.mk (((s.toList.dropWhile isSpaceChar).reverse.dropWhile isSpaceChar).reverse)

/-- Python `str.split('\n')` — helper walking the characters with the
current (reversed) segment. -/
def splitLinesAux : List Char → List Char → List String
  | [], acc => [String.mk acc.reverse]
  | c :: rest, acc =>
    if c = '\n' then String.mk acc.reverse :: splitLinesAux rest []
    else splitLinesAux rest (c :: acc)

/-- Python `str.split('\n')`: `""` gives `[""]`, a trailing newline a final
empty segment. -/
def pySplitLines (s : String) : List String :=
  splitLinesAux s.toList []

/-- Python `str.startswith(pre)`. -/
def pyStartsWith (s pre : String) : Bool :=
  pre.toList.isPrefixOf s.toList

/-- Whether `needle` occurs inside `hay` (Python `needle in hay`). -/
def hasSubstr (needle : List Char) : List Char → Bool
  | [] => needle.isEmpty
  | c :: t => needle.isPrefixOf (c :: t) || hasSubstr needle t

/-- Python `needle in hay` on strings. -/
def strContains (hay needle : String) : Bool :=
  hasSubstr needle.toList hay.toList

/-- Strip a literal off the front: `some rest` when `cs = lit ++ rest`. -/
def stripLit : List Char → List Char → Option (List Char)
  | [], cs => some cs
  | _ :: _, [] => none
  | p :: ps, c :: cs => if c = p then stripLit ps cs else none

/-!
`PythonCommandSyncer._parse_help_text` (`scripts/sync_commands.py` lines
88-115) applies `re.match(r'(\w+)(?:\s+\[options\])?(?:\s+\[.*?\])?\s+(.*)',
line)` to each candidate line.  The matcher below implements exactly this
anchored pattern with Python's backtracking order:

* `(\w+)` is greedy; a shorter-than-maximal word prefix is retried when the
  rest of the pattern fails (`tryGroup1`);
* each optional group is tried present before absent;
* `\s+` before `[` or before `(.*)` effectively takes the maximal whitespace
  run, because the character required next is never whitespace;
* the lazy `.*?` inside `(?:\s+\[.*?\])?` stops at each `]` in turn, shortest
  continuation first (`scanClose`);
* `(.*)` takes everything left on the line.
-/

/-- The trailing `\s+(.*)` of the pattern: at least one whitespace character,
then group 2 is the rest after the maximal whitespace run. -/
def matchTail (cs : List Char) : Option (List Char) :=
  match cs with
  | [] => none
  | c :: _ => if isSpaceChar c then some (cs.dropWhile isSpaceChar) else none

/-- The lazy `.*?\]` of `(?:\s+\[.*?\])?` followed by `\s+(.*)`: at each `]`
(shortest first) try the tail, extending the lazy star past the `]` when the
tail fails; a newline stops the star (`.` does not match it). -/
def scanClose : List Char → Option (List Char)
  | [] => none
  | c :: t =>
    if c = ']' then
      match matchTail t with
      | some g2 => some g2
      | none => scanClose t
    else if c = '\n' then none
    else scanClose t

/-- `(?:\s+\[.*?\])?` taken as present, followed by `\s+(.*)`. -/
def matchBracketTail (cs : List Char) : Option (List Char) :=
  match cs with
  | c :: _ =>
    if isSpaceChar c then
      match cs.dropWhile isSpaceChar with
      | '[' :: inner => scanClose inner
      | _ => none
    else none
  | [] => none

/-- `(?:\s+\[.*?\])?\s+(.*)`: the optional bracket group present first, then
absent. -/
def matchBTail (cs : List Char) : Option (List Char) :=
  match matchBracketTail cs with
  | some g2 => some g2
  | none => matchTail cs

/-- `(?:\s+\[options\])?` taken as present: whitespace then the literal
`[options]`. -/
def matchOptionsGroup (cs : List Char) : Option (List Char) :=
  match cs with
  | c :: _ =>
    if isSpaceChar c then stripLit "[options]".toList (cs.dropWhile isSpaceChar)
    else none
  | [] => none

/-- Everything after the first capture group:
`(?:\s+\[options\])?(?:\s+\[.*?\])?\s+(.*)`, optional groups tried present
before absent. -/
def afterGroup1 (cs : List Char) : Option (List Char) :=
  match matchOptionsGroup cs with
  | some r =>
    match matchBTail r with
    | some g2 => some g2
    | none => matchBTail cs
  | none => matchBTail cs

/-- Greedy backtracking over the length of `(\w+)`: `rg1` is the current
first group reversed (longest first), `rest` what follows it; on failure the
last word character moves back to `rest`, never below one character. -/
def tryGroup1 : List Char → List Char → Option (List Char × List Char)
  | rg1, rest =>
    match afterGroup1 rest with
    | some g2 => some (rg1.reverse, g2)
    | none =>
      match rg1 with
      | [] => none
      | [_] => none
      | c :: rg1x => tryGroup1 rg1x (c :: rest)

/-- `re.match(r'(\w+)(?:\s+\[options\])?(?:\s+\[.*?\])?\s+(.*)', s)`:
`some (group1, group2)` on a match, `none` otherwise. -/
def pyMatchCommandLine (s : String) : Option (String × String) :=
  let cs := s.toList
  let w := cs.takeWhile isWordChar
  if w.isEmpty then none
  else
    match tryGroup1 w.reverse (cs.dropWhile isWordChar) with
    | some (g1, g2) => some (String.mk g1, String.mk g2)
    | none => none

/-- The `Command` dataclass of `sync_commands.py` as `_parse_help_text`
builds it: `name` is the first capture group, `description` the stripped
second one (the dataclass's `options` and `args` fields always keep their
empty defaults there and are omitted). -/
structure Command where
  name : String
  description : String
  deriving DecidableEq

/-- The line loop of `_parse_help_text`: `in_commands_section` starts false;
a stripped line containing `Commands:` sets it and is itself skipped
(`continue`); in the section, a non-empty line not starting with `help` is
matched against the pattern and a match appends one `Command`; everything
else is passed over. -/
def parseHelpLines : Bool → List String → List Command
  | _, [] => []
  | in_commands_section, l :: ls =>
    let line := pyStrip l
    if strContains line "Commands:" then parseHelpLines true ls
    else if in_commands_section && line ≠ "" && !(pyStartsWith line "help") then
      match pyMatchCommandLine line with
      | some (g1, g2) => ⟨g1, pyStrip g2⟩ :: parseHelpLines in_commands_section ls
      | none => parseHelpLines in_commands_section ls
    else parseHelpLines in_commands_section ls

/-- `PythonCommandSyncer._parse_help_text` (`sync_commands.py` lines
88-115). -/
def parse_help_text (help_text : String) : List Command :=
  parseHelpLines false (pySplitLines help_text)

/-- One candidate line of the commands section, as the loop treats its
stripped text: a line containing `Commands:` is skipped (it only re-marks the
section), an empty line or one starting with `help` is skipped, any other
line yields a `Command` exactly when the pattern matches, with `name` the
first capture group and `description` the stripped second one. -/
def commandFromLine (line : String) : Option Command :=
  if strContains line "Commands:" then none
  else if line = "" || pyStartsWith line "help" then none
  else
    match pyMatchCommandLine line with
    | some (g1, g2) => some ⟨g1, pyStrip g2⟩
    | none => none

/-- The lines after the first one containing `Commands:`, if any. -/
def afterCommandsMarker : List String → Option (List String)
  | [] => none
  | l :: ls => if strContains l "Commands:" then some ls else afterCommandsMarker ls

/-- Declarative reading of the scraper: strip every line, keep those after
the first line containing `Commands:`, and collect `commandFromLine` over
them. -/
def commandsOfHelp (help_text : String) : List Command :=
  match afterCommandsMarker ((pySplitLines help_text).map pyStrip) with
  | none => []
  | some rest => rest.filterMap commandFromLine

/-- The candidate-line treatment exactly as the claim words it: only empty
lines and lines starting with `help` are skipped; nothing exempts a later
line that itself contains `Commands:`. -/
def commandFromLineClaim (line : String) : Option Command :=
  if line = "" || pyStartsWith line "help" then none
  else
    match pyMatchCommandLine line with
    | some (g1, g2) => some ⟨g1, pyStrip g2⟩
    | none => none

/-- The claim's reading of the scraper, verbatim: every stripped line after a
line containing `Commands:` is matched against the pattern unless empty or
starting with `help`. -/
def commandsOfHelpClaim (help_text : String) : List Command :=
  match afterCommandsMarker ((pySplitLines help_text).map pyStrip) with
  | none => []
  | some rest => rest.filterMap commandFromLineClaim

theorem parseHelpLines_in_section (ls : List String) :
    parseHelpLines true ls = ls.filterMap (fun l => commandFromLine (pyStrip l)) := by
  induction ls with
  | nil => rfl
  | cons l ls ih =>
    rw [List.filterMap_cons]
    by_cases hm : strContains (pyStrip l) "Commands:"
    · have hc : commandFromLine (pyStrip l) = none := by simp [commandFromLine, hm]
      rw [hc]
      simp only [parseHelpLines]
      rw [if_pos hm]
      exact ih
    · by_cases he : pyStrip l = ""
      · have hc : commandFromLine (pyStrip l) = none := by simp [commandFromLine, hm, he]
        rw [hc]
        simp [parseHelpLines, hm, he, ih]
      · by_cases hh : pyStartsWith (pyStrip l) "help"
        · have hc : commandFromLine (pyStrip l) = none := by
            simp [commandFromLine, hm, he, hh]
          rw [hc]
          simp [parseHelpLines, hm, he, hh, ih]
        · cases hpm : pyMatchCommandLine (pyStrip l) with
          | some p =>
            have hc : commandFromLine (pyStrip l) = some ⟨p.1, pyStrip p.2⟩ := by
              simp [commandFromLine, hm, he, hh, hpm]
            rw [hc]
            simp [parseHelpLines, hm, he, hh, hpm, ih]
          | none =>
            have hc : commandFromLine (pyStrip l) = none := by
              simp [commandFromLine, hm, he, hh, hpm]
            rw [hc]
            simp [parseHelpLines, hm, he, hh, hpm, ih]

theorem parseHelpLines_before_section (ls : List String) :
    parseHelpLines false ls =
      (match afterCommandsMarker (ls.map pyStrip) with
       | none => []
       | some rest => rest.filterMap commandFromLine) := by
  induction ls with
  | nil => rfl
  | cons l ls ih =>
    simp only [parseHelpLines, List.map_cons, afterCommandsMarker]
    by_cases hm : strContains (pyStrip l) "Commands:"
    · rw [if_pos hm, if_pos hm, parseHelpLines_in_section]
      show List.filterMap (fun l => commandFromLine (pyStrip l)) ls
          = List.filterMap commandFromLine (List.map pyStrip ls)
      rw [List.filterMap_map]
      rfl
    · simp only [hm, if_false, Bool.false_and, if_neg]
      exact ih

/-- A concrete environment template for witnesses: `node` on the path, every
path existing, identity path normalisation, sequentially numbered temporary
names, with the subprocess behaviour and the `json.loads` table plugged in.
Each instantiation below only maps strings that Python's `json.loads` would
indeed parse (or reject) the same way. -/
def baseWorld (run : RunCall → RunOutcome) (loads : String → Option Json) : World where
  which := fun _ => some "/usr/bin/node"
  pathNorm := fun s => s
  fsExists := fun _ => true
  tmpName := fun k => "/tmp/mcp" ++ toString k
  runCmd := run
  jsonLoads := loads
  jsonDumps := fun _ => "(json dump)"
  yamlDumps := fun _ => "(yaml dump)"

/-- The dependency probe `MCPTester.__init__` runs. -/
def probeCall : RunCall := ⟨["npx", defaultPkg, "--help"], some 10⟩

/-- Stdout of a successful external run: `json.loads` parses it to
`{"success": true, "passed": 5, "total": 5, "failed": [], "execution_time": 1}`. -/
def okOut : String :=
  "\x7b\"success\": true, \"passed\": 5, \"total\": 5, \"failed\": [], \"execution_time\": 1\x7d"

/-- The value Python's `json.loads` gives for `okOut`. -/
def okOutJson : Json :=
  .obj (.cons "success" (.bool true)
    (.cons "passed" (.num 5)
      (.cons "total" (.num 5)
        (.cons "failed" (.arr .nil)
          (.cons "execution_time" (.num 1) .nil)))))

/-- Stdout whose `success` field is the (truthy, non-`true`) string
`"false"`: `json.loads` parses it to `{"success": "false"}`. -/
def strFalseOut : String := "\x7b\"success\": \"false\"\x7d"

/-- Stdout that is an empty JSON object. -/
def emptyObjOut : String := "\x7b\x7d"

/-- Everything succeeds; the external test run prints `okOut`. -/
def Wok : World := baseWorld
  (fun c => if c.cmd = probeCall.cmd then .completed ⟨0, "help text", ""⟩
            else .completed ⟨0, okOut, ""⟩)
  (fun s => if s = okOut then some okOutJson else none)

/-- Everything succeeds; the external test run prints `strFalseOut`. -/
def WstrFalse : World := baseWorld
  (fun c => if c.cmd = probeCall.cmd then .completed ⟨0, "help text", ""⟩
            else .completed ⟨0, strFalseOut, ""⟩)
  (fun s => if s = strFalseOut then some (.obj (.cons "success" (.str "false") .nil))
            else none)

/-- Everything succeeds; the external test run prints an empty JSON object. -/
def WemptyObj : World := baseWorld
  (fun c => if c.cmd = probeCall.cmd then .completed ⟨0, "help text", ""⟩
            else .completed ⟨0, emptyObjOut, ""⟩)
  (fun s => if s = emptyObjOut then some (.obj .nil) else none)

/-- The dependency probe succeeds but every other run exceeds its timeout. -/
def Wtimeout : World := baseWorld
  (fun c => if c.cmd = probeCall.cmd then .completed ⟨0, "help text", ""⟩
            else .timedOut)
  (fun _ => none)

/-- Runs finish with exit code 0 but print text that is not JSON
(`json.loads` raises on `"not json"`). -/
def WnotJson : World := baseWorld
  (fun c => if c.cmd = probeCall.cmd then .completed ⟨0, "help text", ""⟩
            else .completed ⟨0, "not json", ""⟩)
  (fun _ => none)

/-- `shutil.which("node")` finds nothing. -/
def Wnodeless : World :=
  { baseWorld (fun _ => .completed ⟨0, "", ""⟩) (fun _ => none) with
    which := fun _ => none }

/-- C3: for every mapping `servers`, `create_server_config` produces —
returns, or writes to the given output path — exactly the JSON document
`{"mcpServers": servers}`, and for every list `tests`, `create_test_config`
produces exactly the YAML document `{"tools": {"tests": tests}}` (and nothing
else: the only filesystem effect is that one write). -/
theorem create_config_documents (W : World) (servers : JsonObject)
    (tests : JsonArray) (p : String) (t : Trace) :
    create_server_config W servers none t
      = ((W.jsonDumps (.obj (.cons "mcpServers" (.obj servers) .nil)), servers), t)
    ∧ create_server_config W servers (some p) t
      = ((W.pathNorm p, servers),
         { t with fsOps := t.fsOps ++ [.write (W.pathNorm p)
             (W.jsonDumps (.obj (.cons "mcpServers" (.obj servers) .nil)))] })
    ∧ create_test_config W tests none t
      = ((W.yamlDumps (.obj (.cons "tools"
            (.obj (.cons "tests" (.arr tests) .nil)) .nil)), tests), t)
    ∧ create_test_config W tests (some p) t
      = ((W.pathNorm p, tests),
         { t with fsOps := t.fsOps ++ [.write (W.pathNorm p)
             (W.yamlDumps (.obj (.cons "tools"
                (.obj (.cons "tests" (.arr tests) .nil)) .nil)))] }) :=
  ⟨rfl, rfl, rfl, rfl⟩

/-- C8: no operation of the wrapper mutates a configuration document after
it is created: `_prepare_config`, `create_server_config` and
`create_test_config` leave the caller-supplied config/servers/tests
documents unchanged.  The embedding threads each caller-supplied document
through every operation the source applies to it (a mutation in the source
would surface as an updated document here), and the documents come back
equal to what was passed in. -/
theorem configs_not_mutated (W : World) (cfg : ConfigArg) (config_type : String)
    (servers : JsonObject) (tests : JsonArray) (op : Option String) (t : Trace) :
    (prepare_config W cfg config_type t).1.2 = cfg
    ∧ (create_server_config W servers op t).1.2 = servers
    ∧ (create_test_config W tests op t).1.2 = tests := by
  refine ⟨?_, ?_, ?_⟩
  · cases cfg with
    | path s =>
      simp only [prepare_config]
      split <;> rfl
    | dict d => rfl
    | other => rfl
  · cases op <;> rfl
  · cases op <;> rfl

/-- C9: for a completed run with exit code 0 whose stdout parses as a JSON
object, `_parse_result` with format `"json"` fills every missing key with
its fixed default — `success` with `False`, `passed` with `0`, `total` with
`0`, `failed` with `[]`, `execution_time` with `0.0` — so valid JSON output
lacking a `"success"` key yields an unsuccessful result. -/
theorem parse_result_missing_key_defaults (W : World) (r : CompletedProcess)
    (fields : JsonObject) (h0 : r.returncode = 0)
    (hp : W.jsonLoads r.stdout = some (.obj fields)) :
    parse_result W r "json" = .ok
      { success := Json.get fields "success" (.bool false)
        passed_tests := Json.get fields "passed" (.num 0)
        total_tests := Json.get fields "total" (.num 0)
        failed_tests := Json.get fields "failed" (.arr .nil)
        execution_time := Json.get fields "execution_time" (.num 0)
        output := r.stdout
        error := "" }
    ∧ (fields.lookup "success" = none →
        Json.get fields "success" (.bool false) = .bool false) := by
  constructor
  · simp [parse_result, h0, hp]
  · intro h
    simp [Json.get, h]

/-- C9 witness: a run printing the empty JSON object `{}` yields the result
with every defaulted field, in particular `success = False`. -/
theorem parse_result_missing_key_defaults_witness :
    parse_result WemptyObj ⟨0, emptyObjOut, ""⟩ "json"
      = .ok ⟨.bool false, .num 0, .num 0, .arr .nil, .num 0, emptyObjOut, ""⟩ :=
  (parse_result_missing_key_defaults WemptyObj ⟨0, emptyObjOut, ""⟩ .nil rfl
    (by simp [WemptyObj, baseWorld])).1

/-- C2 (amended): when the format is `"json"` and the stdout of a completed,
zero-exit run parses as JSON, the returned result is populated purely from
that parsed JSON plus the raw stdout text: two runs with equal stdout parse
to equal results whatever their stderr. -/
theorem parse_result_json_purity (W : World) (r1 r2 : CompletedProcess) (d : Json)
    (h1 : r1.returncode = 0) (h2 : r2.returncode = 0) (hs : r1.stdout = r2.stdout)
    (hp : W.jsonLoads r2.stdout = some d) :
    parse_result W r1 "json" = parse_result W r2 "json" := by
  simp only [parse_result, h1, h2, hs, hp]
  cases d <;> rfl

/-- C2 witness: two successful runs printing `okOut` with different stderr
parse to the same result. -/
theorem parse_result_json_purity_witness :
    parse_result Wok ⟨0, okOut, "some stderr"⟩ "json"
      = parse_result Wok ⟨0, okOut, "other stderr"⟩ "json" :=
  parse_result_json_purity Wok ⟨0, okOut, "some stderr"⟩ ⟨0, okOut, "other stderr"⟩
    okOutJson rfl rfl rfl (by simp [Wok, baseWorld])

/-- C2 counterexample to the claim as stated: for a zero-exit run whose
stdout is not valid JSON (Python's `json.loads("not json")` raises), the
fallback branch of `_parse_result` copies stderr into the result's `error`
field, so two completed runs with identical stdout yield different results —
a field is synthesized from something other than the parsed JSON and the raw
output text. -/
theorem parse_result_stderr_dependence :
    parse_result WnotJson ⟨0, "not json", "boom"⟩ "json"
      ≠ parse_result WnotJson ⟨0, "not json", "zap"⟩ "json" := by
  decide

/-- C7 (amended): `_parse_help_text` applies the single regular expression to
each stripped line after the first line containing `Commands:`, skipping
empty lines, lines starting with `help` and lines that themselves contain
`Commands:`; each matching line emits exactly one `Command` whose name is
capture group 1 and whose description is the stripped capture group 2, and a
non-matching line contributes no command and aborts nothing. -/
theorem parse_help_text_spec (help_text : String) :
    parse_help_text help_text = commandsOfHelp help_text := by
  unfold parse_help_text commandsOfHelp
  exact parseHelpLines_before_section _

/-- C7 counterexample to the claim as stated: on help text whose commands
section holds the line `abc Commands: xyz`, the claim's reading emits a
`Command` for that line (it is non-empty, does not start with `help`, and the
regex matches), but `_parse_help_text` skips every line containing
`Commands:` and emits nothing for it. -/
theorem parse_help_text_marker_counterexample :
    parse_help_text "Commands:\nabc Commands: xyz\nfoo  bar" = [⟨"foo", "bar"⟩]
    ∧ commandsOfHelpClaim "Commands:\nabc Commands: xyz\nfoo  bar"
        = [⟨"abc", "Commands: xyz"⟩, ⟨"foo", "bar"⟩] := by
  constructor <;> rfl

/-- C5: constructing `MCPTester` raises `NodeJSNotFoundError` whenever
`shutil.which("node")` finds nothing, and `NPMPackageNotFoundError` whenever
the `npx <package> --help` probe exits non-zero, times out, or cannot be
launched; such an error reaching the `test` subcommand is echoed to standard
error and the process exits 1. -/
theorem dependency_check_error_paths (W : World) (pkg : String) (t : Trace)
    (server_config test : String) (server_name : Option String) (timeout : Int)
    (verbose : Bool) (format : String) (output : Option String) :
    (W.which "node" = none →
      check_dependencies W pkg t
        = (.error (.nodeJSNotFoundError nodeJSNotFoundMessage), t))
    ∧ (∀ p r, W.which "node" = some p →
        W.runCmd ⟨["npx", pkg, "--help"], some 10⟩ = .completed r →
        r.returncode ≠ 0 →
        check_dependencies W pkg t
          = (.error (.npmPackageNotFoundError npmPackageNotFoundMessage),
             { t with runs := t.runs ++ [⟨["npx", pkg, "--help"], some 10⟩] }))
    ∧ (∀ p, W.which "node" = some p →
        W.runCmd ⟨["npx", pkg, "--help"], some 10⟩ = .timedOut →
        check_dependencies W pkg t
          = (.error (.npmPackageNotFoundError npmPackageNotFoundMessage),
             { t with runs := t.runs ++ [⟨["npx", pkg, "--help"], some 10⟩] }))
    ∧ (∀ p, W.which "node" = some p →
        W.runCmd ⟨["npx", pkg, "--help"], some 10⟩ = .fileNotFound →
        check_dependencies W pkg t
          = (.error (.npmPackageNotFoundError npmPackageNotFoundMessage),
             { t with runs := t.runs ++ [⟨["npx", pkg, "--help"], some 10⟩] }))
    ∧ (∀ e t1, check_dependencies W defaultPkg {} = (.error e, t1) →
        e.isMCPTesterError = true →
        cli_test W server_config test server_name timeout verbose format output
          = (.exited [] ["Error: " ++ e.pyStr] 1, t1)) := by
  refine ⟨?_, ?_, ?_, ?_, ?_⟩
  · intro h
    simp [check_dependencies, h]
  · intro p r hw hr hrc
    simp [check_dependencies, hw, hr, hrc]
  · intro p hw hr
    simp [check_dependencies, hw, hr]
  · intro p hw hr
    simp [check_dependencies, hw, hr]
  · intro e t1 hd he
    simp [cli_test, hd, he]

/-- C5 witness: with `node` absent from the search path, the `test`
subcommand reports the `NodeJSNotFoundError` on stderr and exits 1. -/
theorem dependency_check_error_paths_witness :
    cli_test Wnodeless "server.json" "test.yaml" none 30000 false "json" none
      = (.exited [] ["Error: " ++ nodeJSNotFoundMessage] 1, {}) :=
  (dependency_check_error_paths Wnodeless defaultPkg {} "server.json" "test.yaml"
      none 30000 false "json" none).2.2.2.2
    (.nodeJSNotFoundError nodeJSNotFoundMessage) {} rfl rfl

/-- C6: a configuration supplied as a dict is serialised (YAML for the test
configuration, JSON otherwise) and written exactly once to the fresh
temporary file the `tempfile` supply hands out, whose name is returned and
appears in the subprocess argument vector directly after the corresponding
flag; no delete of it is ever emitted; a configuration path that does not
exist raises `MCPConfigurationError`, and so does a value that is neither
str, Path nor dict. -/
theorem prepare_config_tempfile_contract (W : World) (d d1 d2 : Json)
    (config_type s : String) (t : Trace) (pkg : String)
    (server_name : Option String) (timeout : Int) (verbose : Bool)
    (format : String) (output_file : Option String) :
    (prepare_config W (.dict d) config_type t
      = ((.ok (W.tmpName t.tmpCounter), .dict d),
         { t with tmpCounter := t.tmpCounter + 1
                  fsOps := t.fsOps ++ [.write (W.tmpName t.tmpCounter)
                    (if config_type = "test_config" then W.yamlDumps d
                     else W.jsonDumps d)] }))
    ∧ (∀ p, FsOp.delete p ∈ (prepare_config W (.dict d) config_type t).2.fsOps →
        FsOp.delete p ∈ t.fsOps)
    ∧ (W.fsExists (W.pathNorm s) = false →
        prepare_config W (.path s) config_type t
          = ((.error (.mcpConfigurationError
              (config_type ++ " file not found: " ++ W.pathNorm s)), .path s), t))
    ∧ (prepare_config W .other config_type t
        = ((.error (.mcpConfigurationError
            ("Invalid " ++ config_type ++ " type. Expected str, Path, or dict.")),
           .other), t))
    ∧ (["--server-config", W.tmpName t.tmpCounter]
        <:+: buildTestCmd pkg (W.tmpName t.tmpCounter) (W.tmpName (t.tmpCounter + 1))
              server_name timeout verbose format output_file)
    ∧ (["--test", W.tmpName (t.tmpCounter + 1)]
        <:+: buildTestCmd pkg (W.tmpName t.tmpCounter) (W.tmpName (t.tmpCounter + 1))
              server_name timeout verbose format output_file)
    ∧ ((test_server W pkg (.dict d1) (.dict d2) server_name timeout verbose format
          output_file t).2.runs
        = t.runs ++ [⟨buildTestCmd pkg (W.tmpName t.tmpCounter)
            (W.tmpName (t.tmpCounter + 1)) server_name timeout verbose format
            output_file, some ((timeout : Rat) / 1000)⟩]) := by
  refine ⟨rfl, ?_, ?_, rfl, ?_, ?_, ?_⟩
  · intro p hmem
    simp only [prepare_config, List.mem_append, List.mem_singleton] at hmem
    rcases hmem with h | h
    · exact h
    · cases h
  · intro h
    simp [prepare_config, h]
  · exact ⟨["npx", pkg],
      ["--test", W.tmpName (t.tmpCounter + 1)]
        ++ buildTestOpts server_name timeout verbose format output_file,
      by simp [buildTestCmd]⟩
  · exact ⟨["npx", pkg, "--server-config", W.tmpName t.tmpCounter],
      buildTestOpts server_name timeout verbose format output_file,
      by simp [buildTestCmd]⟩
  · simp only [test_server, prepare_config]
    rcases hr : W.runCmd _ with r | _ | _ | m
    · rcases hp : parse_result W r format with res | e <;> simp [hr, hp]
    · simp [hr]
    · simp [hr]
    · simp [hr]

/-- C6 witness: an empty dict server configuration is written once, as JSON,
to the first fresh temporary name. -/
theorem prepare_config_tempfile_contract_witness :
    (prepare_config Wok (.dict (.obj .nil)) "server_config" {}).2.fsOps
      = [.write "/tmp/mcp0" "(json dump)"] := by
  rw [(prepare_config_tempfile_contract Wok (.obj .nil) (.obj .nil) (.obj .nil)
    "server_config" "missing" {} defaultPkg none 30000 false "json" none).1]
  rfl

/-- C4: `test_server` with timeout `t` milliseconds runs the external
subprocess exactly once — a single run is appended to the trace, whatever
the outcome — with the single time limit `t/1000` seconds (Python's
`timeout / 1000.0`, modelled as exact rational division), and when that
limit elapses, or the subprocess exits non-zero, the call raises
`MCPTestExecutionError` once, with no retry of the invocation. -/
theorem test_server_single_run (W : World) (pkg : String)
    (server_config test_config : ConfigArg) (server_name : Option String)
    (timeout : Int) (verbose : Bool) (format : String)
    (output_file : Option String) (t t1 t2 : Trace) (scp tcp : String)
    (sc2 tc2 : ConfigArg)
    (h1 : prepare_config W server_config "server_config" t = ((.ok scp, sc2), t1))
    (h2 : prepare_config W test_config "test_config" t1 = ((.ok tcp, tc2), t2)) :
    ((test_server W pkg server_config test_config server_name timeout verbose
        format output_file t).2.runs
      = t2.runs ++ [⟨buildTestCmd pkg scp tcp server_name timeout verbose format
          output_file, some ((timeout : Rat) / 1000)⟩])
    ∧ (W.runCmd ⟨buildTestCmd pkg scp tcp server_name timeout verbose format
          output_file, some ((timeout : Rat) / 1000)⟩ = .timedOut →
        (test_server W pkg server_config test_config server_name timeout verbose
            format output_file t).1
          = .error (.mcpTestExecutionError
              ("Test execution timed out after " ++ toString timeout ++ "ms") 1 ""))
    ∧ (∀ r, W.runCmd ⟨buildTestCmd pkg scp tcp server_name timeout verbose format
          output_file, some ((timeout : Rat) / 1000)⟩ = .completed r →
        r.returncode ≠ 0 →
        (test_server W pkg server_config test_config server_name timeout verbose
            format output_file t).1
          = .error (.mcpTestExecutionError
              ("Test execution failed: "
                ++ ("Test execution failed with return code "
                    ++ toString r.returncode)) 1 "")) := by
  refine ⟨?_, ?_, ?_⟩
  · simp only [test_server, h1, h2]
    rcases hr : W.runCmd _ with r | _ | _ | m
    · rcases hp : parse_result W r format with res | e <;> simp [hr, hp]
    · simp [hr]
    · simp [hr]
    · simp [hr]
  · intro hto
    simp [test_server, h1, h2, hto]
  · intro r hr hrc
    have hp : parse_result W r format
        = .error (.mcpTestExecutionError
            ("Test execution failed with return code " ++ toString r.returncode)
            r.returncode r.stderr) := by
      simp [parse_result, hrc]
    simp [test_server, h1, h2, hr, hp, PyError.pyStr]

/-- C4 witness: with both configurations present and the external run
exceeding its limit, `test_server` with the default 30000 ms raises the
timeout `MCPTestExecutionError`. -/
theorem test_server_single_run_witness :
    (test_server Wtimeout defaultPkg (.path "server.json") (.path "test.yaml")
        none 30000 false "json" none {}).1
      = .error (.mcpTestExecutionError "Test execution timed out after 30000ms" 1 "") := by
  have h := test_server_single_run Wtimeout defaultPkg (.path "server.json")
    (.path "test.yaml") none 30000 false "json" none {} {} {} "server.json"
    "test.yaml" (.path "server.json") (.path "test.yaml") rfl rfl
  exact h.2.1 (by decide)

/-- C10: a `list_tools` run that exits 0 but prints stdout that is not valid
JSON returns the empty list rather than raising; `list_tools` raises
`MCPTestExecutionError` exactly for a completed subprocess with non-zero
exit code. -/
theorem list_tools_contract (W : World) (pkg : String) (server_config : ConfigArg)
    (server_name : Option String) (t t1 : Trace) (scp : String) (sc2 : ConfigArg)
    (h1 : prepare_config W server_config "server_config" t = ((.ok scp, sc2), t1)) :
    (∀ r, W.runCmd ⟨buildToolsCmd pkg scp server_name, none⟩ = .completed r →
        r.returncode = 0 → W.jsonLoads r.stdout = none →
        (list_tools W pkg server_config server_name t).1 = .ok (.arr .nil))
    ∧ (∀ r, W.runCmd ⟨buildToolsCmd pkg scp server_name, none⟩ = .completed r →
        r.returncode ≠ 0 →
        (list_tools W pkg server_config server_name t).1
          = .error (.mcpTestExecutionError "Failed to list tools"
              r.returncode r.stderr))
    ∧ (∀ m rc stderr,
        (list_tools W pkg server_config server_name t).1
            = .error (.mcpTestExecutionError m rc stderr) →
        ∃ r, W.runCmd ⟨buildToolsCmd pkg scp server_name, none⟩ = .completed r
          ∧ r.returncode ≠ 0) := by
  refine ⟨?_, ?_, ?_⟩
  · intro r hr hrc hl
    simp [list_tools, h1, hr, hrc, hl]
  · intro r hr hrc
    simp [list_tools, h1, hr, hrc]
  · intro m rc stderr h
    rcases hr : W.runCmd ⟨buildToolsCmd pkg scp server_name, none⟩ with r | _ | _ | msg
    · by_cases hz : r.returncode = 0
      · simp only [list_tools, h1, hr] at h
        rcases hl : W.jsonLoads r.stdout with _ | v
        · simp [hz, hl] at h
        · simp [hz, hl] at h
      · exact ⟨r, rfl, hz⟩
    · simp [list_tools, h1, hr] at h
    · simp [list_tools, h1, hr] at h
    · simp [list_tools, h1, hr] at h

/-- C10 witness: a zero-exit `tools` run printing `"not json"` (which
`json.loads` rejects) yields the empty list. -/
theorem list_tools_contract_witness :
    (list_tools WnotJson defaultPkg (.path "server.json") none {}).1
      = .ok (.arr .nil) := by
  have h := list_tools_contract WnotJson defaultPkg (.path "server.json") none {} {}
    "server.json" (.path "server.json") rfl
  exact h.1 ⟨0, "not json", ""⟩ (by decide) rfl rfl

/-- C1 (amended): when tester construction succeeds and the external
subprocess completes without raising, the `test` subcommand echoes the
result text to stdout and exits with `0` when the parsed success value is
truthy (Python `0 if result.success else 1`) and `1` otherwise; in
particular a successful mocked run exits 0 and echoes the result text. -/
theorem cli_test_exit_code_truthy (W : World) (server_config test : String)
    (server_name : Option String) (timeout : Int) (verbose : Bool)
    (format : String) (output : Option String) (t1 t2 : Trace)
    (res : MCPTestResult)
    (hdep : check_dependencies W defaultPkg {} = (.ok (), t1))
    (hrun : test_server W defaultPkg (.path server_config) (.path test)
        server_name timeout verbose format output t1 = (.ok res, t2)) :
    cli_test W server_config test server_name timeout verbose format output
      = (.exited [res.output] [] (if res.success.truthy then 0 else 1), t2) := by
  simp [cli_test, hdep, hrun]

/-- C1 witness: a mocked successful subprocess run (stdout `okOut`, whose
`success` field is `true`) yields exit code 0 with the result text echoed. -/
theorem cli_test_exit_code_truthy_witness :
    (cli_test Wok "server.json" "test.yaml" none 30000 false "json" none).1
      = .exited [okOut] [] 0 := by
  rw [cli_test_exit_code_truthy Wok "server.json" "test.yaml" none 30000 false
    "json" none { runs := [probeCall] }
    { runs := [probeCall,
        ⟨["npx", defaultPkg, "--server-config", "server.json", "--test",
          "test.yaml"], some (((30000 : Int) : Rat) / 1000)⟩] }
    ⟨.bool true, .num 5, .num 5, .arr .nil, .num 1, okOut, ""⟩ rfl rfl]
  rfl

/-- C1 counterexample to the claim as stated: when the external run completes
without raising and prints `{"success": "false"}`, the parsed success value
is the string `"false"` — not `true` — yet the process exits 0, because the
code tests Python truthiness, not equality with `true`. -/
theorem cli_test_success_flag_counterexample :
    (cli_test WstrFalse "server.json" "test.yaml" none 30000 false "json" none).1
      = .exited [strFalseOut] [] 0
    ∧ (parse_result WstrFalse ⟨0, strFalseOut, ""⟩ "json").map
        (fun res => res.success) = .ok (.str "false")
    ∧ Json.str "false" ≠ .bool true := by
  refine ⟨by decide, by decide, by decide⟩
